import Mathlib

/-!
Verification of the spotihue color-derivation pipeline and synchronization
loop against its specification.

The definitions below are shallow embeddings of the Python source files
`backend/spotihue/spotihue.py`, `backend/spotihue/hue.py` and
`backend/spotihue/tasks.py`.  Machine floats are idealized as real numbers
(the spec itself states the pipeline contract is "in spirit, not in float
precision"); Python dictionaries become association lists; Python's
`round(x, 4)` (round-half-even in decimal) is modelled exactly; fallible
Python code (raised exceptions) returns `Except PyError`.
-/

/-- Python exception outcomes relevant to the embedded code paths. -/
inductive PyError where
  | valueError (msg : String)
  | attributeError (attr : String)
  | typeError (msg : String)
  | keyError (key : String)
  | zeroDivisionError
  deriving DecidableEq, Repr

namespace SpotihueColor

open scoped Classical

/-- An RGB cluster center: a 3-vector of (idealized-real) channel values. -/
structure RGB where
  r : ℝ
  g : ℝ
  b : ℝ

/-- Channels of a k-means cluster center lie in [0, 255]. -/
def validRGB (c : RGB) : Prop :=
  0 ≤ c.r ∧ c.r ≤ 255 ∧ 0 ≤ c.g ∧ c.g ≤ 255 ∧ 0 ≤ c.b ∧ c.b ≤ 255

/-- Round-half-even on the reals: nearest integer, ties to the even
neighbor.  This is the rounding mode of Python's builtin `round`. -/
noncomputable def roundHalfEven (t : ℝ) : ℤ :=
  if Int.fract t = 1 / 2 then (if Even ⌊t⌋ then ⌊t⌋ else ⌊t⌋ + 1) else round t

/-- Python's `round(t, 4)`: round to 4 decimal places, half to even. -/
noncomputable def pyRound4 (t : ℝ) : ℝ :=
  (roundHalfEven (t * 10000) : ℝ) / 10000

/-- Embeds `SpotiHue._check_for_black_cluster` (spotihue.py line 271):
`np.where(np.all(cluster == 0), np.array([255, 255, 255]), cluster)`. -/
noncomputable def check_for_black_cluster (cluster : RGB) : RGB :=
  if cluster.r = 0 ∧ cluster.g = 0 ∧ cluster.b = 0 then ⟨255, 255, 255⟩ else cluster

/-- Embeds `SpotiHue._normalize_rgb_values` (spotihue.py line 282):
`cluster / 255.0`. -/
noncomputable def normalize_rgb_values (cluster : RGB) : RGB :=
  ⟨cluster.r / 255.0, cluster.g / 255.0, cluster.b / 255.0⟩

/-- Embeds the per-channel body of `SpotiHue._apply_gamma_correction`
(spotihue.py line 293): `((v + 0.055) / (1.0 + 0.055)) ** 2.4` when
`v > 0.04045`, else `v / 12.92`. -/
noncomputable def gamma_channel (v : ℝ) : ℝ :=
  if v > 0.04045 then ((v + 0.055) / (1.0 + 0.055)) ^ (2.4 : ℝ) else v / 12.92

/-- Embeds `SpotiHue._apply_gamma_correction` applied element-wise to the
three channels of a cluster. -/
noncomputable def apply_gamma_correction (c : RGB) : RGB :=
  ⟨gamma_channel c.r, gamma_channel c.g, gamma_channel c.b⟩

/-- Embeds `SpotiHue._convert_rgb_to_xyz` (spotihue.py lines 315-333), the
Wide RGB D65 conversion matrix, coefficients exactly as in the source. -/
noncomputable def convert_rgb_to_xyz (c : RGB) : ℝ × ℝ × ℝ :=
  (c.r * 0.649926 + c.g * 0.103455 + c.b * 0.197109,
   c.r * 0.234327 + c.g * 0.743075 + c.b * 0.022598,
   c.r * 0.0000000 + c.g * 0.053077 + c.b * 1.035763)

/-- Embeds `SpotiHue._convert_xyz_to_xy` (spotihue.py lines 335-351):
`x = round(X / total, 4)`, `y = round(Y / total, 4)` with
`total = X + Y + Z`. -/
noncomputable def convert_xyz_to_xy (X Y Z : ℝ) : ℝ × ℝ :=
  let total := X + Y + Z
  (pyRound4 (X / total), pyRound4 (Y / total))

/-- The loop body of
`SpotiHue.process_kmeans_clusters_to_light_color_values`
(spotihue.py lines 487-496) applied to one cluster center. -/
noncomputable def cluster_to_light_color_value (cluster : RGB) : ℝ × ℝ :=
  let cluster' := check_for_black_cluster cluster
  let normalized := normalize_rgb_values cluster'
  let corrected := apply_gamma_correction normalized
  let xyz := convert_rgb_to_xyz corrected
  convert_xyz_to_xy xyz.1 xyz.2.1 xyz.2.2

/-- Embeds `SpotiHue.process_kmeans_clusters_to_light_color_values`
(spotihue.py lines 469-498): maps every cluster center, in order, to its
(x, y) light color value. -/
noncomputable def process_kmeans_clusters_to_light_color_values
    (kmeans_cluster_centers : List RGB) : List (ℝ × ℝ) :=
  kmeans_cluster_centers.map cluster_to_light_color_value

/-- The X + Y + Z denominator reached at the final division for a cluster,
after the black-cluster remap, normalization and gamma correction. -/
noncomputable def xyzTotal (cluster : RGB) : ℝ :=
  let corrected :=
    apply_gamma_correction (normalize_rgb_values (check_for_black_cluster cluster))
  let xyz := convert_rgb_to_xyz corrected
  xyz.1 + xyz.2.1 + xyz.2.2

/-- The per-center reference computation exactly as worded by the
specification of claim C4: replace a center by (255,255,255) iff it is
exactly (0,0,0); divide each channel by 255; per channel apply
`((v+0.055)/1.055)^2.4` if `v > 0.04045` else `v/12.92`; take
X = 0.649926R+0.103455G+0.197109B, Y = 0.234327R+0.743075G+0.022598B,
Z = 0.053077G+1.035763B; return (X/(X+Y+Z), Y/(X+Y+Z)), each rounded to
4 decimal places. -/
noncomputable def claimClusterToXY (c : RGB) : ℝ × ℝ :=
  let c' : RGB := if c.r = 0 ∧ c.g = 0 ∧ c.b = 0 then ⟨255, 255, 255⟩ else c
  let gam : ℝ → ℝ := fun v =>
    if v > 0.04045 then ((v + 0.055) / 1.055) ^ (2.4 : ℝ) else v / 12.92
  let R := gam (c'.r / 255)
  let G := gam (c'.g / 255)
  let B := gam (c'.b / 255)
  let X := 0.649926 * R + 0.103455 * G + 0.197109 * B
  let Y := 0.234327 * R + 0.743075 * G + 0.022598 * B
  let Z := 0.053077 * G + 1.035763 * B
  (pyRound4 (X / (X + Y + Z)), pyRound4 (Y / (X + Y + Z)))

/-- The reference pipeline of claim C4, mapped over the centers in cluster
order. -/
noncomputable def claimReferencePipeline (centers : List RGB) : List (ℝ × ℝ) :=
  centers.map claimClusterToXY

/-- Embeds `SpotiHue._resize_album_artwork_image_array_by_percentage`
(spotihue.py lines 230-253), tracking the image shape: the guard is
`if not (1 <= percentage < 100): raise ValueError(...)`; on success
`cv2.resize` is called with target dimensions
`(int(W * percentage / 100), int(H * percentage / 100))`, so the output
array has shape (new height, new width) as returned here.  `percentage`
is a Python int or float, modelled as a rational. -/
def resize_album_artwork_image_array_by_percentage
    (height width : ℕ) (percentage : ℚ) : Except PyError (ℕ × ℕ) :=
  if ¬ (1 ≤ percentage ∧ percentage < 100) then
    .error (.valueError "percentage must be between 1 and 99.")
  else
    .ok ((⌊(height : ℚ) * percentage / 100⌋).toNat,
         (⌊(width : ℚ) * percentage / 100⌋).toNat)

end SpotihueColor

namespace Hue

/-- The mutable attributes of one `HueLight` (hue.py lines 10-57) that the
adapter methods read or write.  `white_light` is the cached "this light has
no colormode" flag; `xy` is the chromaticity state, generic in the color
value type `C`.  The source attribute `on` is spelled `light_on` because
`on` is a reserved word in Lean. -/
structure HueLight (C : Type) where
  light_on : Bool
  brightness : ℕ
  hue : ℕ
  saturation : ℕ
  white_light : Bool
  xy : Option C
  deriving DecidableEq, Repr

/-- The name-indexed light dictionary returned by
`HueBridge.get_light_objects("name")` (hue.py lines 77-113): a Python dict
lookup yielding a light object or a KeyError. -/
def LightMap (C : Type) : Type := String → Option (HueLight C)

/-- Overwrite one named light's state in the map. -/
def set_light {C : Type} (m : LightMap C) (name : String) (l : HueLight C) :
    LightMap C :=
  fun n => if n = name then some l else m n

/-- The `for light in lights` loop of `HueBridge.change_all_lights_to_white`
(hue.py lines 115-134): `current_lights[light]` raises KeyError for an
unknown name; a light that is not on is turned on with brightness 254 and,
when it is not a white light, hue 10000 and saturation 120; a light that is
already on is left untouched. -/
def change_all_lights_to_white_loop {C : Type} :
    LightMap C → List String → Except PyError (LightMap C)
  | m, [] => .ok m
  | m, name :: rest =>
    match m name with
    | none => .error (.keyError name)
    | some current_light =>
      let m' :=
        if ¬ current_light.light_on then
          if ¬ current_light.white_light then
            set_light m name { current_light with
              light_on := true, brightness := 254, hue := 10000, saturation := 120 }
          else
            set_light m name { current_light with light_on := true, brightness := 254 }
        else m
      change_all_lights_to_white_loop m' rest

/-- Embeds `HueBridge.change_all_lights_to_white` (hue.py lines 115-134). -/
def change_all_lights_to_white {C : Type} (m : LightMap C)
    (lights : List String) : Except PyError (LightMap C) :=
  change_all_lights_to_white_loop m lights

/-- The net effect of the `change_all_lights_to_white` loop body on one
light's state (hue.py lines 128-134): only a light that is not on is
modified. -/
def white_update {C : Type} (l : HueLight C) : HueLight C :=
  if ¬ l.light_on then
    if ¬ l.white_light then
      { l with light_on := true, brightness := 254, hue := 10000, saturation := 120 }
    else
      { l with light_on := true, brightness := 254 }
  else l

/-- The `for i, light in enumerate(lights)` loop of
`HueBridge.change_lights_colors` (hue.py lines 136-157), carrying the
running index `i`: `color_values[i % num_colors]` raises ZeroDivisionError
when `num_colors = 0`; `current_lights[light]` raises KeyError for an
unknown name; a white (non-color) light is skipped, otherwise the light's
`xy` is set to the selected color. -/
def change_lights_colors_loop {C : Type} (color_values : List C) :
    ℕ → LightMap C → List String → Except PyError (LightMap C)
  | _, m, [] => .ok m
  | i, m, name :: rest =>
    if h : color_values.length = 0 then .error .zeroDivisionError
    else
      let color := color_values.get
        ⟨i % color_values.length, Nat.mod_lt _ (Nat.pos_of_ne_zero h)⟩
      match m name with
      | none => .error (.keyError name)
      | some current_light =>
        let m' :=
          if ¬ current_light.white_light then
            set_light m name { current_light with xy := some color }
          else m
        change_lights_colors_loop color_values (i + 1) m' rest

/-- Embeds `HueBridge.change_lights_colors` (hue.py lines 136-157). -/
def change_lights_colors {C : Type} (m : LightMap C) (lights : List String)
    (color_values : List C) : Except PyError (LightMap C) :=
  change_lights_colors_loop color_values 0 m lights

/-- The method names defined by class `HueBridge` in hue.py (properties and
methods of the class body). -/
def hueBridgeMethodNames : List String :=
  ["reachable_lights", "get_light_objects",
   "change_all_lights_to_white", "change_lights_colors"]

/-- Modelled from the spec: the base class `phue.Bridge` is a vendor SDK
class outside this repository (the spec scopes the lighting SDK out and
specifies the Light Controller adapter interface as exactly
`list_fixtures`, `set_neutral` and `set_colors`), so its attribute names
are taken from the spec's Light Controller interface. -/
def lightControllerInterfaceNames : List String :=
  ["list_fixtures", "set_neutral", "set_colors"]

/-- All attribute names resolvable on a `HueBridge` object. -/
def hueBridgeAttributeNames : List String :=
  hueBridgeMethodNames ++ lightControllerInterfaceNames

end Hue

namespace SpotifyTrack

/-- One entry of an album's `artists` array: a dict that may carry a
`name` key. -/
structure ArtistData where
  name : Option String
  deriving DecidableEq, Repr

/-- One entry of an album's `images` array: a dict that may carry a
`url` key. -/
structure ImageData where
  url : Option String
  deriving DecidableEq, Repr

/-- The `album` dict of a track payload. -/
structure AlbumData where
  name : Option String
  artists : List ArtistData
  images : List ImageData
  deriving DecidableEq, Repr

/-- The `item` dict of a currently-playing payload.  `album = none` models
a payload without an `album` key (`dict.get` then yields Python `None`). -/
structure TrackData where
  name : Option String
  album : Option AlbumData
  deriving DecidableEq, Repr

/-- A Spotify currently-playing payload.  `item = none` models a missing,
null or empty `item` value, all of which `run` code treats alike via
`current_track.get("item", {})` followed by `if not track_data`. -/
structure CurrentTrack where
  is_playing : Option Bool
  item : Option TrackData
  deriving DecidableEq, Repr

/-- Default sentinels set in `SpotiHue.__init__` (spotihue.py lines 58-61). -/
def default_track_name : String := "unavailable"

def default_track_artist : String := "unavailable"

def default_track_album : String := "unavailable"

def default_track_album_artwork_url : String := ""

/-- Embeds `SpotiHue._extract_track_name` (spotihue.py lines 165-175). -/
def extract_track_name (track_data : TrackData) : String :=
  track_data.name.getD default_track_name

/-- Embeds `SpotiHue._extract_artist_name` (spotihue.py lines 177-194):
`track_data.get("album")` may be Python `None`, in which case
`.get("artists", [])` on it raises AttributeError; otherwise the name of
the album's first artist (or the default) is returned. -/
def extract_artist_name (track_data : TrackData) : Except PyError String :=
  match track_data.album with
  | none => .error (.attributeError "get")
  | some album_data =>
    match album_data.artists with
    | [] => .ok default_track_artist
    | artist :: _ => .ok (artist.name.getD default_track_artist)

/-- Embeds `SpotiHue._extract_album_name` (spotihue.py lines 196-207). -/
def extract_album_name (track_data : TrackData) : Except PyError String :=
  match track_data.album with
  | none => .error (.attributeError "get")
  | some album_data => .ok (album_data.name.getD default_track_album)

/-- Embeds `SpotiHue._extract_album_artwork_url` (spotihue.py lines
209-228): the URL of `images[1]` when more than one image exists,
otherwise the default sentinel. -/
def extract_album_artwork_url (track_data : TrackData) : Except PyError String :=
  match track_data.album with
  | none => .error (.attributeError "get")
  | some album_data =>
    if h : 1 < album_data.images.length then
      .ok ((album_data.images.get ⟨1, h⟩).url.getD default_track_album_artwork_url)
    else
      .ok default_track_album_artwork_url

/-- The `defaults` dict built in `retrieve_current_track_information`
(spotihue.py lines 374-379), as an association list in source key order. -/
def defaultsDict : List (String × String) :=
  [("track_name", default_track_name),
   ("track_artist", default_track_artist),
   ("track_album", default_track_album),
   ("track_album_artwork_url", default_track_album_artwork_url)]

/-- Embeds `SpotiHue.retrieve_current_track_information` (spotihue.py lines
367-393).  When `_get_current_track()` returns `None`, the Python code
substitutes the `defaults` dict, whose missing `item` key then leads to
returning `defaults`; likewise for a payload with a missing/empty `item`.
Otherwise the four fields are extracted; note the source assigns the album
name to key `"track_artist"` (line 389) and the artist name to key
`"track_album"` (line 390). -/
def retrieve_current_track_information (current_track : Option CurrentTrack) :
    Except PyError (List (String × String)) :=
  match current_track with
  | none => .ok defaultsDict
  | some ct =>
    match ct.item with
    | none => .ok defaultsDict
    | some track_data =>
      match extract_album_name track_data, extract_artist_name track_data,
          extract_album_artwork_url track_data with
      | .ok artist_key_value, .ok album_key_value, .ok artwork_url =>
        .ok [("track_name", extract_track_name track_data),
             ("track_artist", artist_key_value),
             ("track_album", album_key_value),
             ("track_album_artwork_url", artwork_url)]
      | .error e, _, _ => .error e
      | .ok _, .error e, _ => .error e
      | .ok _, .ok _, .error e => .error e

end SpotifyTrack

namespace SpotihueSync

/-- The attribute name looked up on the `HueBridge` object by
`SpotiHue.sync_lights_music` at spotihue.py line 550
(`self.hue_bridge.change_light_colors(lights, light_color_values)`). -/
def sync_push_attribute : String := "change_light_colors"

/-- Embeds `SpotiHue.sync_lights_music` (spotihue.py lines 523-550).  The
artwork fetch, decode, resize and k-means stages (lines 541-548) go through
the network and library code, so their composition — from artwork URL to
the derived light color values — is abstracted as
`derive_light_color_values`; the theorems instantiate it with the real
cluster-to-color pipeline.  The final statement resolves the attribute
`sync_push_attribute` on the bridge; per Python attribute lookup, a name
that neither `HueBridge` nor its base class defines raises AttributeError,
otherwise the resolved bridge operation would be invoked with `lights` and
the derived color list (returned here as the `.ok` payload). -/
def sync_lights_music {C : Type} (derive_light_color_values : String → List C)
    (track_album_artwork_url : String) (lights : List String) :
    Except PyError (List String × List C) :=
  if track_album_artwork_url = "" ∨
      track_album_artwork_url = SpotifyTrack.default_track_album_artwork_url then
    .error (.valueError "track_album_artwork_url is invalid")
  else if lights = [] then
    .error (.valueError "lights list should not be empty")
  else
    let light_color_values := derive_light_color_values track_album_artwork_url
    if sync_push_attribute ∈ Hue.hueBridgeAttributeNames then
      .ok (lights, light_color_values)
    else
      .error (.attributeError sync_push_attribute)

end SpotihueSync

namespace Tasks

/-- The Redis key-value state behind `SingletonTaskLock`: at most one
record per lock id, holding the task id and its absolute expiry time. -/
structure RedisLockState where
  record : Option (String × ℕ)
  deriving DecidableEq, Repr

/-- `SingletonTaskLock.LOCK_MAX_DURATION_SECONDS` (tasks.py line 61). -/
def LOCK_MAX_DURATION_SECONDS : ℕ := 60 * 5

/-- `redis.get` for the lock key: the stored value while unexpired,
otherwise nothing (Redis treats an expired key as absent). -/
def redis_get_lock (s : RedisLockState) (now : ℕ) : Option String :=
  match s.record with
  | some (holder, expiry) => if now < expiry then some holder else none
  | none => none

/-- The entry half of `SingletonTaskLock.acquire_for` (tasks.py lines
79-85): `lock_acquired` is true when no record exists or the stored holder
equals `task_id`; on acquisition, `setex` writes a record for `task_id`
expiring `LOCK_MAX_DURATION_SECONDS` from now. -/
def acquire_enter (s : RedisLockState) (now : ℕ) (task_id : String) :
    Bool × RedisLockState :=
  let lock := redis_get_lock s now
  if lock = none ∨ lock = some task_id then
    (true, ⟨some (task_id, now + LOCK_MAX_DURATION_SECONDS)⟩)
  else
    (false, s)

/-- The `finally` half of `SingletonTaskLock.acquire_for` (tasks.py lines
86-88), run on normal and exceptional scope exits alike: the record is
deleted exactly when this invocation acquired the lock. -/
def acquire_exit (lock_acquired : Bool) (s : RedisLockState) : RedisLockState :=
  if lock_acquired then ⟨none⟩ else s

/-- Lookup in an association-list model of a Python dict / Redis hash. -/
def alist_get (l : List (String × String)) (k : String) : Option String :=
  match l with
  | [] => none
  | (k', v) :: rest => if k' = k then some v else alist_get rest k

/-- Update/insert one field of an association-list dict. -/
def alist_set (l : List (String × String)) (k v : String) :
    List (String × String) :=
  match l with
  | [] => [(k, v)]
  | (k', v') :: rest =>
    if k' = k then (k, v) :: rest else (k', v') :: alist_set rest k v

/-- `redis.hset(key, mapping=fields)`: write every field of `fields` into
the hash. -/
def hset_mapping (h fields : List (String × String)) :
    List (String × String) :=
  fields.foldl (fun acc kv => alist_set acc kv.1 kv.2) h

/-- The value held by the local variable `last_track_album_artwork_url` in
`run_spotihue` after the decode step (tasks.py lines 145-148): Redis
returns field values as bytes; a non-empty bytes value is truthy and gets
decoded to a str, while the empty bytes value `b""` is falsy and is left
as bytes, and an absent field stays Python `None`. -/
inductive PyStrVal where
  | pyNone
  | pyBytes (s : String)
  | pyStr (s : String)
  deriving DecidableEq, Repr

/-- Python `!=` between the decoded last-URL value and the current URL
str: `None != str` and `bytes != str` are always true (different types
are never equal); two strs compare by content. -/
def py_ne (a : PyStrVal) (u : String) : Bool :=
  match a with
  | .pyStr s => s ≠ u
  | .pyBytes _ => true
  | .pyNone => true

/-- Keyword-parameter names accepted by
`SpotiHue.retrieve_current_track_information` (spotihue.py line 367): the
method declares no parameter besides `self`. -/
def retrieve_current_track_information_param_names : List String := []

/-- Keyword-argument names supplied at the call site tasks.py line 128:
`spotihue.retrieve_current_track_information(supply_defaults=False)`. -/
def run_spotihue_retrieve_kwarg_names : List String := ["supply_defaults"]

/-- Python call semantics for the poll at tasks.py line 128: a keyword
argument whose name is not among the callee's declared parameters raises
TypeError before the method body runs. -/
def py_call_retrieve (current_track : Option SpotifyTrack.CurrentTrack) :
    Except PyError (List (String × String)) :=
  if run_spotihue_retrieve_kwarg_names.all
      (fun kw => retrieve_current_track_information_param_names.contains kw) then
    SpotifyTrack.retrieve_current_track_information current_track
  else
    .error (.typeError
      "retrieve_current_track_information() got an unexpected keyword argument supply_defaults")

/-- Observable actions of one `run_spotihue` task run. -/
inductive RunEvent where
  | neutralSet (lights : List String)
  | retryWait
  | syncPush (url : String) (lights : List String)
  | tickSleep
  deriving DecidableEq, Repr

/-- How a bounded run of the `while True` loop ended. -/
inductive LoopOutcome where
  | cleanExit
  | failed (e : PyError)
  | fuelOut
  deriving DecidableEq, Repr

/-- The state `run_spotihue` carries across loop iterations: the Redis
track-information hash and the local `retries_spent` counter. -/
structure LoopState where
  redisTrackInfo : List (String × String)
  retries_spent : ℕ
  deriving DecidableEq, Repr

/-- Embeds tasks.py lines 142-160, the tick taken once a (truthy)
track-information dict is in hand: read the current artwork URL from the
dict (a `KeyError` if absent), read and maybe-decode the last synced URL
from Redis, persist the fresh dict with `hset`, and when the two URL
values compare unequal under Python `!=`, invoke
`spotihue.sync_lights_music(track_album_artwork_url, lights)` (whose
exceptions propagate and end the task); finally sleep the randomized
inter-tick interval. -/
def run_tick {C : Type} (derive_light_color_values : String → List C)
    (lights : List String) (track_info : List (String × String))
    (st : LoopState) : List RunEvent × Except PyError LoopState :=
  match alist_get track_info "track_album_artwork_url" with
  | none => ([], .error (.keyError "track_album_artwork_url"))
  | some track_album_artwork_url =>
    let last_bytes := alist_get st.redisTrackInfo "track_album_artwork_url"
    let last_track_album_artwork_url : PyStrVal :=
      match last_bytes with
      | some s => if s = "" then .pyBytes "" else .pyStr s
      | none => .pyNone
    let st' : LoopState :=
      { st with redisTrackInfo := hset_mapping st.redisTrackInfo track_info }
    if py_ne last_track_album_artwork_url track_album_artwork_url then
      match SpotihueSync.sync_lights_music derive_light_color_values
          track_album_artwork_url lights with
      | .error e => ([.syncPush track_album_artwork_url lights], .error e)
      | .ok _ => ([.syncPush track_album_artwork_url lights, .tickSleep], .ok st')
    else
      ([.tickSleep], .ok st')

/-- Embeds one iteration of the `while True` loop of `run_spotihue`
(tasks.py lines 127-160): poll (the call at line 128 carries the
`supply_defaults` keyword), take the no-track retry/exit branch when the
dict is falsy (empty), otherwise run the tick.  `.ok none` signals the
clean `break`. -/
def loop_body {C : Type} (derive_light_color_values : String → List C)
    (lights : List String) (current_track_retries : ℕ)
    (current_track : Option SpotifyTrack.CurrentTrack) (st : LoopState) :
    List RunEvent × Except PyError (Option LoopState) :=
  match py_call_retrieve current_track with
  | .error e => ([], .error e)
  | .ok track_info =>
    if track_info.isEmpty then
      if st.retries_spent < current_track_retries then
        ([.retryWait], .ok (some { st with retries_spent := st.retries_spent + 1 }))
      else
        ([], .ok none)
    else
      match run_tick derive_light_color_values lights track_info st with
      | (evs, .error e) => (evs, .error e)
      | (evs, .ok st') => (evs, .ok (some st'))

/-- Fuel-bounded unfolding of the `while True` loop, polling
`polls n` on the n-th iteration. -/
def run_loop {C : Type} (derive_light_color_values : String → List C)
    (polls : ℕ → Option SpotifyTrack.CurrentTrack) (lights : List String)
    (current_track_retries : ℕ) :
    ℕ → ℕ → LoopState → List RunEvent × LoopOutcome
  | 0, _, _ => ([], .fuelOut)
  | fuel + 1, n, st =>
    match loop_body derive_light_color_values lights current_track_retries
        (polls n) st with
    | (evs, .error e) => (evs, .failed e)
    | (evs, .ok none) => (evs, .cleanExit)
    | (evs, .ok (some st')) =>
      let rest := run_loop derive_light_color_values polls lights
        current_track_retries fuel (n + 1) st'
      (evs ++ rest.1, rest.2)

/-- Embeds the `run_spotihue` celery task (tasks.py lines 119-160): first
all given lights are set to the neutral white state
(`spotihue.change_all_lights_to_normal_color`, which delegates to
`HueBridge.change_all_lights_to_white`), then the poll loop runs. -/
def run_spotihue {C : Type} (derive_light_color_values : String → List C)
    (polls : ℕ → Option SpotifyTrack.CurrentTrack) (lights : List String)
    (current_track_retries : ℕ) (fuel : ℕ) (st : LoopState) :
    List RunEvent × LoopOutcome :=
  let rest := run_loop derive_light_color_values polls lights
    current_track_retries fuel 0 st
  (.neutralSet lights :: rest.1, rest.2)

end Tasks

/-- C6: `SingletonTaskLock.acquire_for(task_id)` yields acquired = true iff
no lock record exists or the existing record's holder equals `task_id`
(reentrant-by-token); successful acquisition writes a record holding
`task_id` with the fixed 5-minute maximum duration; on scope exit the
record is deleted iff this invocation acquired it; while an unexpired
record held by a different token exists, acquisition by another token
fails; after deletion or expiry a different token can acquire. -/
theorem C6_singleton_task_lock (s : Tasks.RedisLockState) (now : ℕ)
    (task_id : String) :
    ((Tasks.acquire_enter s now task_id).1 = true ↔
      Tasks.redis_get_lock s now = none ∨
      Tasks.redis_get_lock s now = some task_id) ∧
    ((Tasks.acquire_enter s now task_id).1 = true →
      (Tasks.acquire_enter s now task_id).2.record =
        some (task_id, now + Tasks.LOCK_MAX_DURATION_SECONDS)) ∧
    (∀ s', Tasks.acquire_exit true s' = ⟨none⟩) ∧
    (∀ s', Tasks.acquire_exit false s' = s') ∧
    (∀ other expiry, s.record = some (other, expiry) → now < expiry →
      other ≠ task_id → (Tasks.acquire_enter s now task_id).1 = false) ∧
    (∀ tid2 now2,
      (Tasks.acquire_enter (Tasks.acquire_exit true s) now2 tid2).1 = true) ∧
    (∀ tid2 holder expiry, s.record = some (holder, expiry) → expiry ≤ now →
      (Tasks.acquire_enter s now tid2).1 = true) := by
  refine ⟨?_, ?_, ?_, ?_, ?_, ?_, ?_⟩
  · by_cases h : Tasks.redis_get_lock s now = none ∨
        Tasks.redis_get_lock s now = some task_id
    · simp [Tasks.acquire_enter, h]
    · simp [Tasks.acquire_enter, h]
  · by_cases h : Tasks.redis_get_lock s now = none ∨
        Tasks.redis_get_lock s now = some task_id
    · simp [Tasks.acquire_enter, h]
    · simp [Tasks.acquire_enter, h]
  · intro s'
    simp [Tasks.acquire_exit]
  · intro s'
    simp [Tasks.acquire_exit]
  · intro other expiry hrec hlt hne
    have hget : Tasks.redis_get_lock s now = some other := by
      simp [Tasks.redis_get_lock, hrec, hlt]
    simp [Tasks.acquire_enter, hget, hne]
  · intro tid2 now2
    simp [Tasks.acquire_exit, Tasks.acquire_enter, Tasks.redis_get_lock]
  · intro tid2 holder expiry hrec hle
    have hget : Tasks.redis_get_lock s now = none := by
      simp [Tasks.redis_get_lock, hrec, Nat.not_lt.mpr hle]
    simp [Tasks.acquire_enter, hget]

/-- C6 witness: with an unexpired record held by token "a", token "b"
cannot acquire the lock. -/
theorem C6_singleton_task_lock_witness :
    (Tasks.acquire_enter ⟨some ("a", 10)⟩ 5 "b").1 = false :=
  (C6_singleton_task_lock ⟨some ("a", 10)⟩ 5 "b").2.2.2.2.1 "a" 10 rfl
    (by norm_num) (by decide)

/-- C9 counterexample: the percentage 1/2 lies inside the open interval
(0, 100), yet the resize step raises ValueError, because the source guard
is `1 <= percentage < 100`, not `0 < percentage < 100`. -/
theorem C9_resize_open_interval_counterexample :
    (0 < (1 / 2 : ℚ) ∧ (1 / 2 : ℚ) < 100) ∧
    SpotihueColor.resize_album_artwork_image_array_by_percentage 100 100 (1 / 2) =
      .error (.valueError "percentage must be between 1 and 99.") := by
  refine ⟨⟨by norm_num, by norm_num⟩, ?_⟩
  unfold SpotihueColor.resize_album_artwork_image_array_by_percentage
  rw [if_pos]
  norm_num

/-- C9 amended: the resize step raises ValueError exactly when the given
percentage lies outside the half-open interval [1, 100); for every
percentage inside [1, 100) it succeeds and returns the image scaled to that
percentage of its original height and width, each new dimension the integer
floor of original-dimension × percentage / 100. -/
theorem C9_resize_amended (height width : ℕ) (p : ℚ) :
    ((∃ msg, SpotihueColor.resize_album_artwork_image_array_by_percentage
        height width p = .error (.valueError msg)) ↔ (p < 1 ∨ 100 ≤ p)) ∧
    (1 ≤ p → p < 100 →
      SpotihueColor.resize_album_artwork_image_array_by_percentage height width p =
        .ok ((⌊(height : ℚ) * p / 100⌋).toNat, (⌊(width : ℚ) * p / 100⌋).toNat)) := by
  unfold SpotihueColor.resize_album_artwork_image_array_by_percentage
  by_cases h : 1 ≤ p ∧ p < 100
  · rw [if_neg (not_not_intro h)]
    refine ⟨?_, fun _ _ => rfl⟩
    constructor
    · rintro ⟨msg, hmsg⟩
      exact absurd hmsg (by simp)
    · intro hcase
      rcases h with ⟨h1, h2⟩
      rcases hcase with h3 | h3 <;> linarith
  · rw [if_pos h]
    refine ⟨?_, ?_⟩
    · constructor
      · intro _
        rcases not_and_or.mp h with h1 | h1
        · exact Or.inl (not_le.mp h1)
        · exact Or.inr (not_lt.mp h1)
      · intro _
        exact ⟨_, rfl⟩
    · intro h1 h2
      exact absurd ⟨h1, h2⟩ h

/-- C9 witness: resizing a 100×50 image by 60 percent succeeds and yields
a 60×30 image. -/
theorem C9_resize_amended_witness :
    SpotihueColor.resize_album_artwork_image_array_by_percentage 100 50 60 =
      .ok (60, 30) := by
  rw [(C9_resize_amended 100 50 60).2 (by norm_num) (by norm_num)]
  norm_num
  omega

/-- C10: for every current-track payload whose item contains an album named
A whose first artist is named P, `retrieve_current_track_information`
returns a dict in which key "track_artist" maps to A (the album name) and
key "track_album" maps to P (the first artist's name): the two values are
swapped with respect to their key names (spotihue.py lines 389-390). -/
theorem C10_track_artist_album_swapped (ct : SpotifyTrack.CurrentTrack)
    (track_data : SpotifyTrack.TrackData) (album : SpotifyTrack.AlbumData)
    (first_artist : SpotifyTrack.ArtistData)
    (rest : List SpotifyTrack.ArtistData) (A P : String)
    (hitem : ct.item = some track_data)
    (halbum : track_data.album = some album)
    (hartists : album.artists = first_artist :: rest)
    (hA : album.name = some A) (hP : first_artist.name = some P) :
    ∃ info,
      SpotifyTrack.retrieve_current_track_information (some ct) = .ok info ∧
      Tasks.alist_get info "track_artist" = some A ∧
      Tasks.alist_get info "track_album" = some P := by
  have h1 : SpotifyTrack.extract_album_name track_data = .ok A := by
    simp [SpotifyTrack.extract_album_name, halbum, hA]
  have h2 : SpotifyTrack.extract_artist_name track_data = .ok P := by
    simp [SpotifyTrack.extract_artist_name, halbum, hartists, hP]
  obtain ⟨u, h3⟩ :
      ∃ u, SpotifyTrack.extract_album_artwork_url track_data = .ok u := by
    simp only [SpotifyTrack.extract_album_artwork_url, halbum]
    split
    · exact ⟨_, rfl⟩
    · exact ⟨_, rfl⟩
  refine ⟨[("track_name", SpotifyTrack.extract_track_name track_data),
      ("track_artist", A), ("track_album", P),
      ("track_album_artwork_url", u)], ?_, ?_, ?_⟩
  · simp only [SpotifyTrack.retrieve_current_track_information, hitem, h1, h2, h3]
  · simp [Tasks.alist_get]
  · simp [Tasks.alist_get]

/-- C10 witness: a concrete payload with album "AlbumA" by first artist
"ArtistP" comes back with "track_artist" = "AlbumA" and
"track_album" = "ArtistP". -/
theorem C10_track_artist_album_swapped_witness :
    ∃ info,
      SpotifyTrack.retrieve_current_track_information
        (some ⟨some true, some ⟨some "Song", some ⟨some "AlbumA",
          [⟨some "ArtistP"⟩], []⟩⟩⟩) = .ok info ∧
      Tasks.alist_get info "track_artist" = some "AlbumA" ∧
      Tasks.alist_get info "track_album" = some "ArtistP" :=
  C10_track_artist_album_swapped _ _ _ _ [] "AlbumA" "ArtistP" rfl rfl rfl rfl rfl

/-- C1 (code bug): for every non-empty artwork URL and non-empty lights
list, `sync_lights_music` passes its guards and derives the light colors,
but its final statement resolves the attribute `change_light_colors` on
the bridge, a name that neither `HueBridge` nor the Light Controller
interface defines — it differs from the defined color-setting operation
`change_lights_colors` — so the call raises AttributeError and the
bridge's color-setting operation is never invoked with the lights and the
derived color list. -/
theorem C1_sync_push_attribute_error
    (centers : String → List SpotihueColor.RGB) (url : String)
    (lights : List String) (hurl : url ≠ "") (hlights : lights ≠ []) :
    SpotihueSync.sync_lights_music
      (fun u => SpotihueColor.process_kmeans_clusters_to_light_color_values
        (centers u)) url lights =
      .error (.attributeError "change_light_colors") ∧
    SpotihueSync.sync_push_attribute ∉ Hue.hueBridgeAttributeNames ∧
    "change_light_colors" ≠ "change_lights_colors" := by
  refine ⟨?_, by decide, by decide⟩
  simp [SpotihueSync.sync_lights_music, hurl,
    SpotifyTrack.default_track_album_artwork_url, hlights,
    SpotihueSync.sync_push_attribute, Hue.hueBridgeAttributeNames,
    Hue.hueBridgeMethodNames, Hue.lightControllerInterfaceNames]

/-- C1 witness: a concrete valid URL and lights list runs into the
AttributeError at the push step. -/
theorem C1_sync_push_attribute_error_witness :
    SpotihueSync.sync_lights_music
      (fun u => SpotihueColor.process_kmeans_clusters_to_light_color_values
        ((fun _ => []) u)) "https://i.scdn.co/image/cover" ["Lamp"] =
      .error (.attributeError "change_light_colors") :=
  (C1_sync_push_attribute_error (fun _ => []) "https://i.scdn.co/image/cover"
    ["Lamp"] (by decide) (by decide)).1

/-- C3 (code bug): with `no_track_retries = 2` and a Track Source that
always reports nothing playing (indeed with any poll stream), the task
performs the initial neutral-set and then dies at the very first poll with
TypeError, because tasks.py line 128 passes the keyword argument
`supply_defaults` that `retrieve_current_track_information` does not
accept: the trace carries no retry wait (the claimed 2 retry waits never
happen) and no color push, and termination is a failure, not a clean
stop. -/
theorem C3_run_spotihue_first_poll_type_error
    (centers : String → List SpotihueColor.RGB)
    (polls : ℕ → Option SpotifyTrack.CurrentTrack) (lights : List String)
    (st : Tasks.LoopState) (fuel : ℕ) (hfuel : 0 < fuel) :
    Tasks.run_spotihue
      (fun u => SpotihueColor.process_kmeans_clusters_to_light_color_values
        (centers u)) polls lights 2 fuel st =
      ([.neutralSet lights],
       .failed (.typeError
         "retrieve_current_track_information() got an unexpected keyword argument supply_defaults")) := by
  obtain ⟨f, rfl⟩ : ∃ f, fuel = f + 1 := ⟨fuel - 1, by omega⟩
  have hp : ∀ ct, Tasks.py_call_retrieve ct =
      .error (.typeError
        "retrieve_current_track_information() got an unexpected keyword argument supply_defaults") :=
    fun ct => rfl
  simp [Tasks.run_spotihue, Tasks.run_loop, Tasks.loop_body, hp]

/-- C3 witness: the failure at a concrete instantiation with an
always-nothing-playing track source and fuel 3. -/
theorem C3_run_spotihue_first_poll_type_error_witness :
    Tasks.run_spotihue
      (fun u => SpotihueColor.process_kmeans_clusters_to_light_color_values
        ((fun _ => []) u)) (fun _ => none) ["Lamp"] 2 3 ⟨[], 0⟩ =
      ([.neutralSet ["Lamp"]],
       .failed (.typeError
         "retrieve_current_track_information() got an unexpected keyword argument supply_defaults")) :=
  C3_run_spotihue_first_poll_type_error (fun _ => []) (fun _ => none) ["Lamp"]
    ⟨[], 0⟩ 3 (by norm_num)

/-- C2 counterexample: a tick whose retrieved artwork URL (the empty
default sentinel) equals the persisted last-synced URL nevertheless
invokes `sync_lights_music`: Redis hands the stored empty URL back as the
falsy bytes value, the decode step is skipped, and Python's
`b"" != ""` comparison is true because the types differ, so the
unchanged-URL skip is missed (the sync invocation then raises ValueError
on the empty URL, ending the task). -/
theorem C2_empty_url_tick_syncs :
    Tasks.alist_get SpotifyTrack.defaultsDict "track_album_artwork_url" =
      some "" ∧
    Tasks.alist_get [("track_album_artwork_url", "")]
      "track_album_artwork_url" = some "" ∧
    (Tasks.run_tick (fun _ => ([] : List Unit)) ["Lamp"]
      SpotifyTrack.defaultsDict ⟨[("track_album_artwork_url", "")], 0⟩).1 =
      [.syncPush "" ["Lamp"]] :=
  ⟨rfl, rfl, rfl⟩

/-- C2 amended: for every tick of the synchronization loop in which the
retrieved track's artwork URL is non-empty and equals the last-synced
artwork URL persisted between ticks, `sync_lights_music` is not invoked:
the tick persists the fresh dict and performs only the inter-tick sleep.
(When both URLs are the empty sentinel, the bytes-vs-str comparison makes
the tick attempt a sync instead.) -/
theorem C2_unchanged_nonempty_url_skips {C : Type}
    (derive : String → List C) (lights : List String)
    (track_info : List (String × String)) (st : Tasks.LoopState) (u : String)
    (hu : Tasks.alist_get track_info "track_album_artwork_url" = some u)
    (hne : u ≠ "")
    (hlast : Tasks.alist_get st.redisTrackInfo "track_album_artwork_url" =
      some u) :
    Tasks.run_tick derive lights track_info st =
      ([.tickSleep],
       .ok { st with
        redisTrackInfo := Tasks.hset_mapping st.redisTrackInfo track_info }) := by
  simp [Tasks.run_tick, hu, hlast, hne, Tasks.py_ne]

/-- C2 witness: a tick with non-empty URL "u1" both retrieved and
persisted is a pure skip. -/
theorem C2_unchanged_nonempty_url_skips_witness :
    Tasks.run_tick (fun _ => ([] : List Unit)) ["L"]
      [("track_album_artwork_url", "u1")]
      ⟨[("track_album_artwork_url", "u1")], 0⟩ =
      ([Tasks.RunEvent.tickSleep], .ok ⟨[("track_album_artwork_url", "u1")], 0⟩) :=
  C2_unchanged_nonempty_url_skips (fun _ => []) ["L"]
    [("track_album_artwork_url", "u1")]
    ⟨[("track_album_artwork_url", "u1")], 0⟩ "u1" rfl (by decide) rfl

/-- Loop invariant of `change_lights_colors_loop`: with a non-empty color
list and resolvable, duplicate-free light names, the loop starting at
index i succeeds, leaves every other name untouched, and gives position j
the color at index (i + j) mod n unless the light is white-only. -/
theorem change_lights_colors_loop_spec {C : Type} (colors : List C)
    (hcolors : colors.length ≠ 0) (lights : List String) :
    ∀ (i : ℕ) (m : Hue.LightMap C),
      (∀ name ∈ lights, (m name).isSome = true) → lights.Nodup →
      ∃ m', Hue.change_lights_colors_loop colors i m lights = .ok m' ∧
        (∀ name, name ∉ lights → m' name = m name) ∧
        ∀ (j : ℕ) (hj : j < lights.length) (l : Hue.HueLight C),
          m (lights.get ⟨j, hj⟩) = some l →
          m' (lights.get ⟨j, hj⟩) =
            some (if l.white_light then l
              else { l with xy := colors[(i + j) % colors.length]? }) := by
  induction lights with
  | nil =>
    intro i m hres hnodup
    exact ⟨m, rfl, fun _ _ => rfl, fun j hj => absurd hj (by simp)⟩
  | cons name rest ih =>
    intro i m hres hnodup
    obtain ⟨l₀, hl₀⟩ := Option.isSome_iff_exists.mp
      (hres name (List.mem_cons_self _ _))
    have hnotmem : name ∉ rest := (List.nodup_cons.mp hnodup).1
    have hrest_nodup : rest.Nodup := (List.nodup_cons.mp hnodup).2
    have hpos : 0 < colors.length := Nat.pos_of_ne_zero hcolors
    set c₀ : C := colors.get ⟨i % colors.length, Nat.mod_lt _ hpos⟩ with hc₀
    set m₁ : Hue.LightMap C :=
      if ¬ l₀.white_light then Hue.set_light m name { l₀ with xy := some c₀ }
      else m with hm₁
    have hm₁_other : ∀ nm, nm ≠ name → m₁ nm = m nm := by
      intro nm hnm
      by_cases hw : l₀.white_light
      · simp [hm₁, hw]
      · simp [hm₁, hw, Hue.set_light, hnm]
    have hm₁_name : m₁ name =
        some (if l₀.white_light then l₀ else { l₀ with xy := some c₀ }) := by
      by_cases hw : l₀.white_light
      · simp [hm₁, hw, hl₀]
      · simp [hm₁, hw, Hue.set_light]
    have hres₁ : ∀ nm ∈ rest, (m₁ nm).isSome = true := by
      intro nm hnm
      by_cases hnme : nm = name
      · rw [hnme, hm₁_name]
        rfl
      · rw [hm₁_other nm hnme]
        exact hres nm (List.mem_cons_of_mem _ hnm)
    obtain ⟨m₂, hrun, huntouched, hidx⟩ := ih (i + 1) m₁ hres₁ hrest_nodup
    have hstep : Hue.change_lights_colors_loop colors i m (name :: rest) =
        Hue.change_lights_colors_loop colors (i + 1) m₁ rest := by
      rw [Hue.change_lights_colors_loop, dif_neg hcolors, hl₀]
    refine ⟨m₂, by rw [hstep, hrun], ?_, ?_⟩
    · intro nm hnm
      have h1 : nm ∉ rest := fun h => hnm (List.mem_cons_of_mem _ h)
      have h2 : nm ≠ name := fun h => hnm (h ▸ List.mem_cons_self _ _)
      rw [huntouched nm h1, hm₁_other nm h2]
    · intro j hj l hml
      cases j with
      | zero =>
        have hget : (name :: rest).get ⟨0, hj⟩ = name := rfl
        rw [hget] at hml ⊢
        have hll : l = l₀ := Option.some.inj (hml ▸ hl₀)
        subst hll
        have hsome : colors[(i + 0) % colors.length]? = some c₀ := by
          rw [Nat.add_zero, hc₀, List.getElem?_eq_getElem (Nat.mod_lt _ hpos)]
          rfl
        rw [huntouched name hnotmem, hm₁_name, hsome]
      | succ j =>
        have hj' : j < rest.length := by
          simpa using Nat.lt_of_succ_lt_succ hj
        have hget : (name :: rest).get ⟨j + 1, hj⟩ = rest.get ⟨j, hj'⟩ := rfl
        rw [hget] at hml ⊢
        have hne : rest.get ⟨j, hj'⟩ ≠ name := by
          intro h
          exact hnotmem (h ▸ List.get_mem rest _ _)
        have hm₁j : m₁ (rest.get ⟨j, hj'⟩) = some l := by
          rw [hm₁_other _ hne, hml]
        have := hidx j hj' l hm₁j
        rwa [show i + 1 + j = i + (j + 1) by omega] at this

/-- C7: for every non-empty list of colors and every duplicate-free list
of resolvable fixture names, `change_lights_colors` never errors; fixture
i (0-based) gets its `xy` set to `colors[i % n]`, and a white-only fixture
is skipped (its state is unchanged). -/
theorem C7_cyclic_color_assignment {C : Type} (m : Hue.LightMap C)
    (lights : List String) (colors : List C) (hcolors : colors ≠ [])
    (hres : ∀ name ∈ lights, (m name).isSome = true)
    (hnodup : lights.Nodup) :
    ∃ m', Hue.change_lights_colors m lights colors = .ok m' ∧
      ∀ (i : ℕ) (hi : i < lights.length) (l : Hue.HueLight C),
        m (lights.get ⟨i, hi⟩) = some l →
        m' (lights.get ⟨i, hi⟩) =
          some (if l.white_light then l
            else { l with xy := colors[i % colors.length]? }) := by
  have hlen : colors.length ≠ 0 := by
    simpa using fun h => hcolors (List.length_eq_zero.mp h)
  obtain ⟨m', hrun, _, hidx⟩ :=
    change_lights_colors_loop_spec colors hlen lights 0 m hres hnodup
  refine ⟨m', hrun, ?_⟩
  intro i hi l hml
  have := hidx i hi l hml
  rwa [Nat.zero_add] at this

/-- C7 witness: two resolvable fixtures, one color-capable and one
white-only, one color — the call succeeds. -/
theorem C7_cyclic_color_assignment_witness :
    ∃ m', Hue.change_lights_colors
      (fun n => if n = "A" then some ⟨true, 1, 2, 3, false, (none : Option Bool)⟩
        else if n = "B" then some ⟨true, 1, 2, 3, true, none⟩ else none)
      ["A", "B"] [true] = .ok m' := by
  obtain ⟨m', hok, _⟩ := C7_cyclic_color_assignment
    (fun n => if n = "A" then some ⟨true, 1, 2, 3, false, (none : Option Bool)⟩
      else if n = "B" then some ⟨true, 1, 2, 3, true, none⟩ else none)
    ["A", "B"] [true] (by decide) (by decide) (by decide)
  exact ⟨m', hok⟩

/-- Loop invariant of `change_all_lights_to_white_loop`: with resolvable,
duplicate-free names the loop succeeds, leaves other names untouched, and
applies `white_update` to every listed light. -/
theorem change_all_lights_to_white_loop_spec {C : Type}
    (lights : List String) :
    ∀ (m : Hue.LightMap C),
      (∀ name ∈ lights, (m name).isSome = true) → lights.Nodup →
      ∃ m', Hue.change_all_lights_to_white_loop m lights = .ok m' ∧
        (∀ name, name ∉ lights → m' name = m name) ∧
        ∀ (j : ℕ) (hj : j < lights.length) (l : Hue.HueLight C),
          m (lights.get ⟨j, hj⟩) = some l →
          m' (lights.get ⟨j, hj⟩) = some (Hue.white_update l) := by
  induction lights with
  | nil =>
    intro m hres hnodup
    exact ⟨m, rfl, fun _ _ => rfl, fun j hj => absurd hj (by simp)⟩
  | cons name rest ih =>
    intro m hres hnodup
    obtain ⟨l₀, hl₀⟩ := Option.isSome_iff_exists.mp
      (hres name (List.mem_cons_self _ _))
    have hnotmem : name ∉ rest := (List.nodup_cons.mp hnodup).1
    have hrest_nodup : rest.Nodup := (List.nodup_cons.mp hnodup).2
    set m₁ : Hue.LightMap C :=
      if ¬ l₀.light_on then
        if ¬ l₀.white_light then
          Hue.set_light m name { l₀ with
            light_on := true, brightness := 254, hue := 10000, saturation := 120 }
        else
          Hue.set_light m name { l₀ with light_on := true, brightness := 254 }
      else m with hm₁
    have hm₁_other : ∀ nm, nm ≠ name → m₁ nm = m nm := by
      intro nm hnm
      by_cases hon : l₀.light_on
      · simp [hm₁, hon]
      · by_cases hw : l₀.white_light
        · simp [hm₁, hon, hw, Hue.set_light, hnm]
        · simp [hm₁, hon, hw, Hue.set_light, hnm]
    have hm₁_name : m₁ name = some (Hue.white_update l₀) := by
      by_cases hon : l₀.light_on
      · simp [hm₁, hon, Hue.white_update, hl₀]
      · by_cases hw : l₀.white_light
        · simp [hm₁, hon, hw, Hue.set_light, Hue.white_update]
        · simp [hm₁, hon, hw, Hue.set_light, Hue.white_update]
    have hres₁ : ∀ nm ∈ rest, (m₁ nm).isSome = true := by
      intro nm hnm
      by_cases hnme : nm = name
      · rw [hnme, hm₁_name]
        rfl
      · rw [hm₁_other nm hnme]
        exact hres nm (List.mem_cons_of_mem _ hnm)
    obtain ⟨m₂, hrun, huntouched, hidx⟩ := ih m₁ hres₁ hrest_nodup
    have hstep : Hue.change_all_lights_to_white_loop m (name :: rest) =
        Hue.change_all_lights_to_white_loop m₁ rest := by
      rw [Hue.change_all_lights_to_white_loop, hl₀]
    refine ⟨m₂, by rw [hstep, hrun], ?_, ?_⟩
    · intro nm hnm
      have h1 : nm ∉ rest := fun h => hnm (List.mem_cons_of_mem _ h)
      have h2 : nm ≠ name := fun h => hnm (h ▸ List.mem_cons_self _ _)
      rw [huntouched nm h1, hm₁_other nm h2]
    · intro j hj l hml
      cases j with
      | zero =>
        have hget : (name :: rest).get ⟨0, hj⟩ = name := rfl
        rw [hget] at hml ⊢
        have hll : l = l₀ := Option.some.inj (hml ▸ hl₀)
        subst hll
        rw [huntouched name hnotmem, hm₁_name]
      | succ j =>
        have hj' : j < rest.length := by
          simpa using Nat.lt_of_succ_lt_succ hj
        have hget : (name :: rest).get ⟨j + 1, hj⟩ = rest.get ⟨j, hj'⟩ := rfl
        rw [hget] at hml ⊢
        have hne : rest.get ⟨j, hj'⟩ ≠ name := by
          intro h
          exact hnotmem (h ▸ List.get_mem rest _ _)
        have hm₁j : m₁ (rest.get ⟨j, hj'⟩) = some l := by
          rw [hm₁_other _ hne, hml]
        exact hidx j hj' l hm₁j

/-- C8 counterexample: a fixture that is already on with a non-neutral
state (brightness 100, hue 5000, saturation 200) is left completely
unchanged by the start-of-loop neutral-set — it is not set to the
baseline (brightness 254, hue 10000, saturation 120), contradicting
"regardless of the fixture's prior on/off or color state". -/
theorem C8_already_on_light_unchanged :
    (Hue.change_all_lights_to_white
      (fun n => if n = "Lamp"
        then some ⟨true, 100, 5000, 200, false, (none : Option Unit)⟩
        else none) ["Lamp"]).map (fun m' => m' "Lamp") =
      .ok (some ⟨true, 100, 5000, 200, false, none⟩) ∧
    ((⟨true, 100, 5000, 200, false, none⟩ : Hue.HueLight Unit) ≠
      ⟨true, 254, 10000, 120, false, none⟩) :=
  ⟨rfl, by decide⟩

/-- C8 amended: at loop start (before any derived color is applied — the
run trace begins with the neutral-set), every fixture in the given list
that is currently off is turned on with brightness 254 and, when
color-capable, the fixed warm-white color hue 10000 / saturation 120
(brightness only for white-only fixtures); fixtures that are already on
are left unchanged, keeping their prior color state. -/
theorem C8_neutral_baseline_amended {C : Type} (m : Hue.LightMap C)
    (lights : List String)
    (hres : ∀ name ∈ lights, (m name).isSome = true)
    (hnodup : lights.Nodup) :
    (∃ m', Hue.change_all_lights_to_white m lights = .ok m' ∧
      ∀ (j : ℕ) (hj : j < lights.length) (l : Hue.HueLight C),
        m (lights.get ⟨j, hj⟩) = some l →
        m' (lights.get ⟨j, hj⟩) = some (Hue.white_update l)) ∧
    (∀ (derive : String → List Unit) polls current_track_retries fuel st,
      (Tasks.run_spotihue derive polls lights
        current_track_retries fuel st).1.head? =
        some (.neutralSet lights)) := by
  refine ⟨?_, fun _ _ _ _ _ => rfl⟩
  obtain ⟨m', hrun, _, hidx⟩ :=
    change_all_lights_to_white_loop_spec lights m hres hnodup
  exact ⟨m', hrun, hidx⟩

/-- C8 witness: one off color light and one off white-only light both get
turned on with the respective baseline state. -/
theorem C8_neutral_baseline_amended_witness :
    ∃ m', Hue.change_all_lights_to_white
      (fun n => if n = "A" then some ⟨false, 1, 2, 3, false, (none : Option Unit)⟩
        else if n = "B" then some ⟨false, 1, 2, 3, true, none⟩ else none)
      ["A", "B"] = .ok m' := by
  obtain ⟨⟨m', hok, _⟩, _⟩ := C8_neutral_baseline_amended
    (fun n => if n = "A" then some ⟨false, 1, 2, 3, false, (none : Option Unit)⟩
      else if n = "B" then some ⟨false, 1, 2, 3, true, none⟩ else none)
    ["A", "B"] (by decide) (by decide)
  exact ⟨m', hok⟩

/-- The xy pair produced from an XYZ triple written in the source's
channel-times-coefficient order equals the pair written in the claim's
coefficient-times-channel order (the source's Z carries an explicit zero
R term). -/
theorem convert_xyz_to_xy_formula (R G B : ℝ) :
    SpotihueColor.convert_xyz_to_xy
      (R * 0.649926 + G * 0.103455 + B * 0.197109)
      (R * 0.234327 + G * 0.743075 + B * 0.022598)
      (R * 0.0000000 + G * 0.053077 + B * 1.035763) =
    (SpotihueColor.pyRound4 ((0.649926 * R + 0.103455 * G + 0.197109 * B) /
        (0.649926 * R + 0.103455 * G + 0.197109 * B +
         (0.234327 * R + 0.743075 * G + 0.022598 * B) +
         (0.053077 * G + 1.035763 * B))),
     SpotihueColor.pyRound4 ((0.234327 * R + 0.743075 * G + 0.022598 * B) /
        (0.649926 * R + 0.103455 * G + 0.197109 * B +
         (0.234327 * R + 0.743075 * G + 0.022598 * B) +
         (0.053077 * G + 1.035763 * B)))) := by
  simp only [SpotihueColor.convert_xyz_to_xy, Prod.mk.injEq]
  constructor <;> · congr 1; ring

/-- The source's per-cluster computation agrees with the claim's
per-center reference computation on every cluster center. -/
theorem cluster_to_light_color_value_eq_claim (c : SpotihueColor.RGB) :
    SpotihueColor.cluster_to_light_color_value c =
      SpotihueColor.claimClusterToXY c := by
  have h255 : (255.0 : ℝ) = 255 := by norm_num
  have hgam : ∀ v : ℝ, SpotihueColor.gamma_channel v =
      if v > 0.04045 then ((v + 0.055) / 1.055) ^ (2.4 : ℝ) else v / 12.92 := by
    intro v
    unfold SpotihueColor.gamma_channel
    by_cases h : v > 0.04045
    · rw [if_pos h, if_pos h]
      norm_num
    · rw [if_neg h, if_neg h]
  simp only [SpotihueColor.cluster_to_light_color_value,
    SpotihueColor.claimClusterToXY, SpotihueColor.check_for_black_cluster,
    SpotihueColor.normalize_rgb_values, SpotihueColor.apply_gamma_correction,
    SpotihueColor.convert_rgb_to_xyz]
  rw [h255, hgam, hgam, hgam, convert_xyz_to_xy_formula]

/-- C4: for every list of cluster centers with channels in [0,255], the
source pipeline `process_kmeans_clusters_to_light_color_values` maps each
center, in cluster order, to exactly the (x,y) pair prescribed by the
claim's reference pipeline (black-cluster guard, /255 normalization, sRGB
inverse companding, Wide-RGB-D65 matrix, xy division, 4-decimal
rounding). -/
theorem C4_pipeline_matches_reference (centers : List SpotihueColor.RGB)
    (_h : ∀ c ∈ centers, SpotihueColor.validRGB c) :
    SpotihueColor.process_kmeans_clusters_to_light_color_values centers =
      SpotihueColor.claimReferencePipeline centers := by
  clear _h
  unfold SpotihueColor.process_kmeans_clusters_to_light_color_values
    SpotihueColor.claimReferencePipeline
  induction centers with
  | nil => rfl
  | cons c cs ih =>
    simp only [List.map_cons]
    rw [cluster_to_light_color_value_eq_claim c, ih]

/-- C4 witness: the agreement at the concrete center (1,2,3). -/
theorem C4_pipeline_matches_reference_witness :
    SpotihueColor.process_kmeans_clusters_to_light_color_values [⟨1, 2, 3⟩] =
      SpotihueColor.claimReferencePipeline [⟨1, 2, 3⟩] :=
  C4_pipeline_matches_reference [⟨1, 2, 3⟩] (by
    intro c hc
    rw [List.mem_singleton] at hc
    subst hc
    norm_num [SpotihueColor.validRGB])

/-- Round-half-even never exceeds its argument by more than one half. -/
theorem roundHalfEven_le_add_half (t : ℝ) :
    (SpotihueColor.roundHalfEven t : ℝ) ≤ t + 1 / 2 := by
  unfold SpotihueColor.roundHalfEven
  by_cases htie : Int.fract t = 1 / 2
  · rw [if_pos htie]
    have hf : (⌊t⌋ : ℝ) + Int.fract t = t := Int.floor_add_fract t
    rw [htie] at hf
    by_cases he : Even ⌊t⌋
    · rw [if_pos he]
      linarith
    · rw [if_neg he]
      push_cast
      linarith
  · rw [if_neg htie]
    have h1 : -(1 / 2 : ℝ) ≤ t - (round t : ℝ) :=
      neg_le_of_abs_le (abs_sub_round t)
    linarith

/-- Round-half-even never falls below its argument by more than one
half. -/
theorem sub_half_le_roundHalfEven (t : ℝ) :
    t - 1 / 2 ≤ (SpotihueColor.roundHalfEven t : ℝ) := by
  unfold SpotihueColor.roundHalfEven
  by_cases htie : Int.fract t = 1 / 2
  · rw [if_pos htie]
    have hf : (⌊t⌋ : ℝ) + Int.fract t = t := Int.floor_add_fract t
    rw [htie] at hf
    by_cases he : Even ⌊t⌋
    · rw [if_pos he]
      linarith
    · rw [if_neg he]
      push_cast
      linarith
  · rw [if_neg htie]
    have h1 : t - (round t : ℝ) ≤ 1 / 2 :=
      le_trans (le_abs_self _) (abs_sub_round t)
    linarith

/-- Round-half-even attains the upper bound t + 1/2 only at a tie whose
floor is odd. -/
theorem roundHalfEven_eq_add_half (t : ℝ)
    (h : (SpotihueColor.roundHalfEven t : ℝ) = t + 1 / 2) :
    Int.fract t = 1 / 2 ∧ ¬ Even ⌊t⌋ := by
  unfold SpotihueColor.roundHalfEven at h
  by_cases htie : Int.fract t = 1 / 2
  · rw [if_pos htie] at h
    refine ⟨htie, ?_⟩
    intro he
    rw [if_pos he] at h
    have hf : (⌊t⌋ : ℝ) + Int.fract t = t := Int.floor_add_fract t
    rw [htie] at hf
    linarith
  · rw [if_neg htie] at h
    exfalso
    apply htie
    have ht : t = ((round t : ℤ) : ℝ) - 1 / 2 := by linarith
    have hfloor : ⌊t⌋ = round t - 1 := by
      rw [Int.floor_eq_iff]
      push_cast
      constructor <;> linarith
    have hfr : Int.fract t = t - (⌊t⌋ : ℝ) := rfl
    rw [hfr, hfloor]
    push_cast
    linarith

/-- Two reals whose sum is at most an even integer N keep their
round-half-even sum at most N: the only way both roundings could gain one
half is a pair of ties with odd floors, whose floor sum N - 1 would then
be both odd and even. -/
theorem roundHalfEven_add_le (a b : ℝ) (N : ℤ) (hN : Even N)
    (h : a + b ≤ (N : ℝ)) :
    SpotihueColor.roundHalfEven a + SpotihueColor.roundHalfEven b ≤ N := by
  by_contra hc
  push_neg at hc
  have h1 : (N : ℝ) + 1 ≤
      ((SpotihueColor.roundHalfEven a + SpotihueColor.roundHalfEven b : ℤ) : ℝ) := by
    exact_mod_cast Int.add_one_le_iff.mpr hc
  have h2 := roundHalfEven_le_add_half a
  have h3 := roundHalfEven_le_add_half b
  push_cast at h1
  have ha : (SpotihueColor.roundHalfEven a : ℝ) = a + 1 / 2 := by linarith
  have hb : (SpotihueColor.roundHalfEven b : ℝ) = b + 1 / 2 := by linarith
  obtain ⟨hfa, hea⟩ := roundHalfEven_eq_add_half a ha
  obtain ⟨hfb, heb⟩ := roundHalfEven_eq_add_half b hb
  have hfa' : (⌊a⌋ : ℝ) + 1 / 2 = a := by
    have := Int.floor_add_fract a
    rw [hfa] at this
    linarith
  have hfb' : (⌊b⌋ : ℝ) + 1 / 2 = b := by
    have := Int.floor_add_fract b
    rw [hfb] at this
    linarith
  have hsum : (⌊a⌋ : ℝ) + (⌊b⌋ : ℝ) = (N : ℝ) - 1 := by linarith
  have hsumz : ⌊a⌋ + ⌊b⌋ = N - 1 := by exact_mod_cast hsum
  have heven : Even (⌊a⌋ + ⌊b⌋) :=
    Odd.add_odd (Int.not_even_iff_odd.mp hea) (Int.not_even_iff_odd.mp heb)
  rw [hsumz] at heven
  rcases hN with ⟨k, hk⟩
  rcases heven with ⟨j, hj⟩
  omega

/-- Python round-to-4-decimals of a nonnegative value is nonnegative. -/
theorem pyRound4_nonneg (t : ℝ) (h : 0 ≤ t) :
    0 ≤ SpotihueColor.pyRound4 t := by
  unfold SpotihueColor.pyRound4
  have h1 := sub_half_le_roundHalfEven (t * 10000)
  have h2 : (0 : ℝ) ≤ (SpotihueColor.roundHalfEven (t * 10000) : ℝ) := by
    have hgt : (-1 : ℝ) < (SpotihueColor.roundHalfEven (t * 10000) : ℝ) := by
      nlinarith
    have hz : (-1 : ℤ) < SpotihueColor.roundHalfEven (t * 10000) := by
      exact_mod_cast hgt
    have : (0 : ℤ) ≤ SpotihueColor.roundHalfEven (t * 10000) := by omega
    exact_mod_cast this
  exact div_nonneg h2 (by norm_num)

/-- Python round-to-4-decimals of a value at most one is at most one. -/
theorem pyRound4_le_one (t : ℝ) (h : t ≤ 1) :
    SpotihueColor.pyRound4 t ≤ 1 := by
  unfold SpotihueColor.pyRound4
  have h1 := roundHalfEven_le_add_half (t * 10000)
  have h2 : (SpotihueColor.roundHalfEven (t * 10000) : ℝ) ≤ 10000 := by
    have hlt : SpotihueColor.roundHalfEven (t * 10000) < 10001 := by
      have : (SpotihueColor.roundHalfEven (t * 10000) : ℝ) < 10001 := by nlinarith
      exact_mod_cast this
    have : SpotihueColor.roundHalfEven (t * 10000) ≤ 10000 := by omega
    exact_mod_cast this
  rw [div_le_one (by norm_num : (0 : ℝ) < 10000)]
  exact h2

/-- The 4-decimal roundings of two values summing to at most one sum to
at most one. -/
theorem pyRound4_add_le_one (x y : ℝ) (h : x + y ≤ 1) :
    SpotihueColor.pyRound4 x + SpotihueColor.pyRound4 y ≤ 1 := by
  unfold SpotihueColor.pyRound4
  have hs : x * 10000 + y * 10000 ≤ ((10000 : ℤ) : ℝ) := by
    push_cast
    nlinarith
  have hle := roundHalfEven_add_le (x * 10000) (y * 10000) 10000
    ⟨5000, by norm_num⟩ hs
  have hr : ((SpotihueColor.roundHalfEven (x * 10000) : ℝ) +
      (SpotihueColor.roundHalfEven (y * 10000) : ℝ)) ≤ 10000 := by
    exact_mod_cast hle
  linarith

/-- Gamma correction maps a nonnegative channel to a nonnegative value. -/
theorem gamma_channel_nonneg (v : ℝ) (h : 0 ≤ v) :
    0 ≤ SpotihueColor.gamma_channel v := by
  unfold SpotihueColor.gamma_channel
  by_cases hv : v > 0.04045
  · rw [if_pos hv]
    exact Real.rpow_nonneg (div_nonneg (by linarith) (by norm_num)) _
  · rw [if_neg hv]
    exact div_nonneg h (by norm_num)

/-- Gamma correction maps a positive channel to a positive value. -/
theorem gamma_channel_pos (v : ℝ) (h : 0 < v) :
    0 < SpotihueColor.gamma_channel v := by
  unfold SpotihueColor.gamma_channel
  by_cases hv : v > 0.04045
  · rw [if_pos hv]
    exact Real.rpow_pos_of_pos (div_pos (by linarith) (by norm_num)) _
  · rw [if_neg hv]
    exact div_pos h (by norm_num)

/-- Per-cluster range facts: for channels in [0,255] the X+Y+Z denominator
reached after the black-cluster remap is positive, and the rounded (x,y)
pair lies in the chromaticity triangle. -/
theorem cluster_to_light_color_value_bounds (c : SpotihueColor.RGB)
    (h : SpotihueColor.validRGB c) :
    0 < SpotihueColor.xyzTotal c ∧
    0 ≤ (SpotihueColor.cluster_to_light_color_value c).1 ∧
    (SpotihueColor.cluster_to_light_color_value c).1 ≤ 1 ∧
    0 ≤ (SpotihueColor.cluster_to_light_color_value c).2 ∧
    (SpotihueColor.cluster_to_light_color_value c).2 ≤ 1 ∧
    (SpotihueColor.cluster_to_light_color_value c).1 +
      (SpotihueColor.cluster_to_light_color_value c).2 ≤ 1 := by
  obtain ⟨hr0, hr255, hg0, hg255, hb0, hb255⟩ := h
  set c' := SpotihueColor.check_for_black_cluster c with hc'
  have hc'_facts : (0 ≤ c'.r ∧ 0 ≤ c'.g ∧ 0 ≤ c'.b) ∧
      (0 < c'.r ∨ 0 < c'.g ∨ 0 < c'.b) := by
    rw [hc', SpotihueColor.check_for_black_cluster]
    by_cases hb : c.r = 0 ∧ c.g = 0 ∧ c.b = 0
    · rw [if_pos hb]
      norm_num
    · rw [if_neg hb]
      refine ⟨⟨hr0, hg0, hb0⟩, ?_⟩
      by_contra hno
      push_neg at hno
      obtain ⟨h1, h2, h3⟩ := hno
      exact hb ⟨le_antisymm h1 hr0, le_antisymm h2 hg0, le_antisymm h3 hb0⟩
  obtain ⟨⟨h1, h2, h3⟩, hposchan⟩ := hc'_facts
  set R := SpotihueColor.gamma_channel (c'.r / 255.0) with hR
  set G := SpotihueColor.gamma_channel (c'.g / 255.0) with hG
  set B := SpotihueColor.gamma_channel (c'.b / 255.0) with hB
  have hRnn : 0 ≤ R := by
    rw [hR]
    exact gamma_channel_nonneg _ (div_nonneg h1 (by norm_num))
  have hGnn : 0 ≤ G := by
    rw [hG]
    exact gamma_channel_nonneg _ (div_nonneg h2 (by norm_num))
  have hBnn : 0 ≤ B := by
    rw [hB]
    exact gamma_channel_nonneg _ (div_nonneg h3 (by norm_num))
  set X := R * 0.649926 + G * 0.103455 + B * 0.197109 with hX
  set Y := R * 0.234327 + G * 0.743075 + B * 0.022598 with hY
  set Z := R * 0.0000000 + G * 0.053077 + B * 1.035763 with hZ
  have hXnn : 0 ≤ X := by
    rw [hX]
    nlinarith
  have hYpos : 0 < Y := by
    rw [hY]
    rcases hposchan with hp | hp | hp
    · have hRp : 0 < R := by
        rw [hR]
        exact gamma_channel_pos _ (div_pos hp (by norm_num))
      nlinarith
    · have hGp : 0 < G := by
        rw [hG]
        exact gamma_channel_pos _ (div_pos hp (by norm_num))
      nlinarith
    · have hBp : 0 < B := by
        rw [hB]
        exact gamma_channel_pos _ (div_pos hp (by norm_num))
      nlinarith
  have hZnn : 0 ≤ Z := by
    rw [hZ]
    nlinarith
  have htot : 0 < X + Y + Z := by linarith
  have hxyzTotal : SpotihueColor.xyzTotal c = X + Y + Z := by
    simp only [SpotihueColor.xyzTotal, SpotihueColor.normalize_rgb_values,
      SpotihueColor.apply_gamma_correction, SpotihueColor.convert_rgb_to_xyz,
      ← hc', ← hR, ← hG, ← hB, ← hX, ← hY, ← hZ]
  have hval : SpotihueColor.cluster_to_light_color_value c =
      (SpotihueColor.pyRound4 (X / (X + Y + Z)),
       SpotihueColor.pyRound4 (Y / (X + Y + Z))) := by
    simp only [SpotihueColor.cluster_to_light_color_value,
      SpotihueColor.normalize_rgb_values, SpotihueColor.apply_gamma_correction,
      SpotihueColor.convert_rgb_to_xyz, SpotihueColor.convert_xyz_to_xy,
      ← hc', ← hR, ← hG, ← hB, ← hX, ← hY, ← hZ]
  have hxle : X ≤ X + Y + Z := by linarith
  have hyle : Y ≤ X + Y + Z := by linarith
  have hsumle : X / (X + Y + Z) + Y / (X + Y + Z) ≤ 1 := by
    rw [div_add_div_same, div_le_one htot]
    linarith
  rw [hxyzTotal, hval]
  refine ⟨htot, ?_, ?_, ?_, ?_, ?_⟩
  · exact pyRound4_nonneg _ (div_nonneg hXnn htot.le)
  · exact pyRound4_le_one _ ((div_le_one htot).mpr hxle)
  · exact pyRound4_nonneg _ (div_nonneg hYpos.le htot.le)
  · exact pyRound4_le_one _ ((div_le_one htot).mpr hyle)
  · exact pyRound4_add_le_one _ _ hsumle

/-- C5: for every list of cluster centers with channels in [0,255], every
derived chromaticity pair (x,y) satisfies 0 ≤ x ≤ 1, 0 ≤ y ≤ 1 and
x + y ≤ 1; in particular the denominator X+Y+Z at the final division is
nonzero after the black-cluster remap, so the division is
well-defined. -/
theorem C5_xy_range_invariant (centers : List SpotihueColor.RGB)
    (h : ∀ c ∈ centers, SpotihueColor.validRGB c) :
    (∀ c ∈ centers, SpotihueColor.xyzTotal c ≠ 0) ∧
    (∀ p ∈ SpotihueColor.process_kmeans_clusters_to_light_color_values centers,
      0 ≤ p.1 ∧ p.1 ≤ 1 ∧ 0 ≤ p.2 ∧ p.2 ≤ 1 ∧ p.1 + p.2 ≤ 1) := by
  constructor
  · intro c hc
    exact (cluster_to_light_color_value_bounds c (h c hc)).1.ne'
  · intro p hp
    rw [SpotihueColor.process_kmeans_clusters_to_light_color_values,
      List.mem_map] at hp
    obtain ⟨c, hc, rfl⟩ := hp
    obtain ⟨-, h1, h2, h3, h4, h5⟩ :=
      cluster_to_light_color_value_bounds c (h c hc)
    exact ⟨h1, h2, h3, h4, h5⟩

/-- C5 witness: the invariant instantiated at the all-black center, the
very case the black-cluster guard exists for. -/
theorem C5_xy_range_invariant_witness :
    (∀ c ∈ [(⟨0, 0, 0⟩ : SpotihueColor.RGB)], SpotihueColor.xyzTotal c ≠ 0) ∧
    (∀ p ∈ SpotihueColor.process_kmeans_clusters_to_light_color_values
        [(⟨0, 0, 0⟩ : SpotihueColor.RGB)],
      0 ≤ p.1 ∧ p.1 ≤ 1 ∧ 0 ≤ p.2 ∧ p.2 ≤ 1 ∧ p.1 + p.2 ≤ 1) :=
  C5_xy_range_invariant [⟨0, 0, 0⟩] (by
    intro c hc
    rw [List.mem_singleton] at hc
    subst hc
    norm_num [SpotihueColor.validRGB])
